import Mathlib

/-!
Shallow embedding of `src/whisper_feature_extractor.py` (class
`ASVspoofWhisperDataset`): the Metadata Loader (`load_metadata`) and the
per-item Feature Pipeline (`__getitem__`).

Conventions of the embedding:
* Python strings are Lean `String`s; `str.strip().split()` (split on runs of
  whitespace, dropping empty pieces) is modelled by `fields`.
* Python list indexing `parts[i]`, which raises `IndexError` when out of
  range, is modelled with `List.getElem?` plus an explicit error constructor;
  a raised exception is an `Except.error` value that aborts the whole call.
* The filesystem is an explicit map `String → Option Audio`; `None` models a
  missing file (`torchaudio.load` raising).
* Sample amplitudes are modelled as rationals `ℚ` (the code's floats play no
  arithmetic role in the claims); a decoded waveform is a channel list
  `List (List ℚ)` as returned 2-D by `torchaudio.load`.
* External library transforms (the resampler, the Whisper mel front-end) are
  parameters of the pipeline, since their internals are outside this file.
-/

namespace WhisperFeatureExtractor

instance {ε α : Type} [DecidableEq ε] [DecidableEq α] :
    DecidableEq (Except ε α) := fun a b =>
  match a, b with
  | .error e, .error f =>
    decidable_of_iff (e = f) ⟨fun h => by rw [h], fun h => by injection h⟩
  | .ok x, .ok y =>
    decidable_of_iff (x = y) ⟨fun h => by rw [h], fun h => by injection h⟩
  | .error _, .ok _ => isFalse fun h => Except.noConfusion h
  | .ok _, .error _ => isFalse fun h => Except.noConfusion h

/-! ## Metadata Loader (`load_metadata`, lines 23–32) -/

/-- Errors of the Metadata Loader: a missing protocol file (`open` raising)
or a Python `IndexError` at index `i` (`parts[i]` on a short line). -/
inductive MetaError where
  | fileNotFound
  | indexError (i : Nat)
deriving DecidableEq, Repr

/-- Helper for `fields`: split a character list on runs of whitespace,
accumulating the current (reversed) word in `cur`. -/
def splitWsAux : List Char → List Char → List (List Char)
  | [], [] => []
  | [], cur => [cur.reverse]
  | c :: cs, cur =>
    if c.isWhitespace then
      if cur.isEmpty then splitWsAux cs []
      else cur.reverse :: splitWsAux cs []
    else splitWsAux cs (c :: cur)

/-- Python `line.strip().split()`: the whitespace-separated fields of a
protocol line, with no empty fields. -/
def fields (line : String) : List String :=
  (splitWsAux line.data []).map List.asString

/-- One iteration of the loop body of `load_metadata` (lines 27–30):
`parts = line.strip().split(); filename = parts[1];
label = 0 if parts[4] == 'bonafide' else 1`. -/
def parseLine (line : String) : Except MetaError (String × Nat) :=
  match (fields line)[1]? with
  | none => .error (.indexError 1)
  | some filename =>
    match (fields line)[4]? with
    | none => .error (.indexError 4)
    | some f4 => .ok (filename, if f4 = "bonafide" then 0 else 1)

/-- The loop of `load_metadata` over the lines of the protocol file: on the
first raised `IndexError` the whole call aborts (accumulated entries are
discarded), otherwise all entries are returned in file order. -/
def parseLines : List String → Except MetaError (List (String × Nat))
  | [] => .ok []
  | line :: rest =>
    match parseLine line with
    | .error e => .error e
    | .ok entry =>
      match parseLines rest with
      | .error e => .error e
      | .ok entries => .ok (entry :: entries)

/-- `load_metadata` (lines 23–32): `contents` is `none` when the protocol
file is missing (Python `open` raises), `some lines` its lines otherwise. -/
def load_metadata (contents : Option (List String)) :
    Except MetaError (List (String × Nat)) :=
  match contents with
  | none => .error .fileNotFound
  | some lines => parseLines lines

/-! ## Feature Pipeline (`__getitem__`, lines 37–70) -/

/-- A decoded audio file, as returned by `torchaudio.load`: a 2-D waveform
(one list of samples per channel) and the native sample rate. -/
structure Audio where
  channels : List (List ℚ)
  sampleRate : Nat
deriving DecidableEq

/-- Result of `waveform.squeeze(0)` on a 2-D waveform: a 1-D tensor when the
leading dimension has size 1, the unchanged 2-D tensor otherwise. -/
inductive SqueezedWaveform where
  | one (samples : List ℚ)
  | many (channels : List (List ℚ))
deriving DecidableEq

/-- A 2-D feature matrix (frequency bins × time): `rows` are the per-bin time
series and `timeLen` is the size of the last (time) dimension,
`mel_features.size(-1)`. -/
structure Tensor2 where
  rows : List (List ℚ)
  timeLen : Nat
deriving DecidableEq

/-- Well-formedness of a `Tensor2` as a rectangular tensor: every row has
length `timeLen`. -/
def Tensor2.wf (m : Tensor2) : Prop :=
  ∀ r ∈ m.rows, r.length = m.timeLen

instance (m : Tensor2) : Decidable m.wf :=
  inferInstanceAs (Decidable (∀ r ∈ m.rows, r.length = m.timeLen))

/-- `os.path.join(self.audio_dir, filename + '.flac')` (line 39). -/
def audioPath (audioDir filename : String) : String :=
  audioDir ++ "/" ++ filename ++ ".flac"

/-- Lines 45–49: `if sample_rate != self.sampling_rate: waveform =
resampler(waveform)`. The resampler itself is an external torchaudio
transform, passed in as `resample origFreq newFreq waveform`. -/
def resampleStep (resample : Nat → Nat → List (List ℚ) → List (List ℚ))
    (samplingRate : Nat) (w : List (List ℚ)) (sampleRate : Nat) :
    List (List ℚ) :=
  if sampleRate ≠ samplingRate then resample sampleRate samplingRate w else w

/-- Line 52: `waveform = waveform.squeeze(0)`. Torch `squeeze(0)` drops
dimension 0 exactly when its size is 1. -/
def squeeze0 : List (List ℚ) → SqueezedWaveform
  | [c] => .one c
  | cs => .many cs

/-- Lines 62–68: pad the time axis on the right with zeros
(`F.pad(mel_features, (0, padding))`) when `size(-1) < target_length`,
else truncate (`mel_features[:, :self.target_length]`). -/
def padOrTruncate (targetLength : Nat) (m : Tensor2) : Tensor2 :=
  if m.timeLen < targetLength then
    { rows := m.rows.map fun r =>
        r ++ List.replicate (targetLength - m.timeLen) (0 : ℚ),
      timeLen := targetLength }
  else
    { rows := m.rows.map fun r => r.take targetLength,
      timeLen := targetLength }

/-- Errors of the per-item pipeline: `torchaudio.load` raising on a missing
audio file. -/
inductive ItemError where
  | ioError (path : String)
deriving DecidableEq

/-- `__getitem__` (lines 37–70) for one metadata entry `(filename, label)`.
`fs` models the filesystem; `resample` and `featureExtractor` model the
external torchaudio resampler and the Whisper mel front-end
(`whisper_processor.feature_extractor(...).input_features.squeeze(0)`). -/
def getItem (fs : String → Option Audio)
    (resample : Nat → Nat → List (List ℚ) → List (List ℚ))
    (featureExtractor : SqueezedWaveform → Tensor2)
    (audioDir : String) (samplingRate targetLength : Nat)
    (entry : String × Nat) : Except ItemError (Tensor2 × Nat) :=
  match fs (audioPath audioDir entry.1) with
  | none => .error (.ioError (audioPath audioDir entry.1))
  | some audio =>
    let w := resampleStep resample samplingRate audio.channels audio.sampleRate
    let mel := featureExtractor (squeeze0 w)
    .ok (padOrTruncate targetLength mel, entry.2)

/-! ## Helper lemmas -/

/-- A line with fewer than 5 whitespace-separated fields makes the loop body
raise an `IndexError` (at index 1 or at index 4). -/
theorem parseLine_error_of_short (line : String)
    (h : (fields line).length < 5) : ∃ e, parseLine line = .error e := by
  cases h1 : (fields line)[1]? with
  | none => exact ⟨.indexError 1, by simp [parseLine, h1]⟩
  | some f1 =>
    have h4 : (fields line)[4]? = none :=
      List.getElem?_eq_none_iff.mpr (by omega)
    exact ⟨.indexError 4, by simp [parseLine, h1, h4]⟩

/-- A successfully parsed entry's filename is field 1 of its line. -/
theorem parseLine_ok_field1 {line : String} {entry : String × Nat}
    (h : parseLine line = .ok entry) : (fields line)[1]? = some entry.1 := by
  unfold parseLine at h
  cases h1 : (fields line)[1]? with
  | none => rw [h1] at h; cases h
  | some f1 =>
    rw [h1] at h
    cases h4 : (fields line)[4]? with
    | none => rw [h4] at h; cases h
    | some f4 =>
      rw [h4] at h
      injection h with h'
      rw [← h']

/-- The pad-or-truncate step always outputs time length `targetLength`. -/
theorem padOrTruncate_timeLen (targetLength : Nat) (m : Tensor2) :
    (padOrTruncate targetLength m).timeLen = targetLength := by
  unfold padOrTruncate
  split <;> rfl

/-- The pad-or-truncate step preserves rectangularity. -/
theorem padOrTruncate_wf (targetLength : Nat) (m : Tensor2) (hwf : m.wf) :
    (padOrTruncate targetLength m).wf := by
  unfold Tensor2.wf at hwf
  unfold padOrTruncate Tensor2.wf
  split
  case isTrue hlt =>
    intro r hr
    simp only [List.mem_map] at hr
    obtain ⟨s, hs, rfl⟩ := hr
    simp [hwf s hs]
    omega
  case isFalse hge =>
    intro r hr
    simp only [List.mem_map] at hr
    obtain ⟨s, hs, rfl⟩ := hr
    simp [hwf s hs]
    omega

/-! ## Claim theorems: Metadata Loader -/

/-- C1: for every protocol line, if field 4 equals the literal string
`"bonafide"` the parsed label is 0, and for any other value of field 4 the
parsed label is 1; in particular the line `LA_0001 LA_T_0001 - - bonafide`
yields the entry `("LA_T_0001", 0)` and the line
`LA_0001 LA_T_0002 - - spoof` yields the entry `("LA_T_0002", 1)`. -/
theorem parseLine_label_rule (line f1 f4 : String)
    (h1 : (fields line)[1]? = some f1) (h4 : (fields line)[4]? = some f4) :
    parseLine line = .ok (f1, if f4 = "bonafide" then 0 else 1) ∧
    parseLine "LA_0001 LA_T_0001 - - bonafide" = .ok ("LA_T_0001", 0) ∧
    parseLine "LA_0001 LA_T_0002 - - spoof" = .ok ("LA_T_0002", 1) :=
  ⟨by simp [parseLine, h1, h4], by decide, by decide⟩

/-- Witness for C1 at the concrete spoof-labelled line. -/
theorem parseLine_label_rule_witness :
    parseLine "LA_0001 LA_T_0002 - - spoof" =
      .ok ("LA_T_0002", if "spoof" = "bonafide" then 0 else 1) :=
  (parseLine_label_rule "LA_0001 LA_T_0002 - - spoof" "LA_T_0002" "spoof"
    (by decide) (by decide)).1

/-- C5: the Metadata Loader fails fatally (no partial result, no silent
skip) when the protocol file is missing, and whenever some line has fewer
than 5 whitespace-separated fields. -/
theorem load_metadata_fatal (lines : List String)
    (hbad : ∃ line ∈ lines, (fields line).length < 5) :
    load_metadata none = .error .fileNotFound ∧
    ∃ e, load_metadata (some lines) = .error e := by
  refine ⟨rfl, ?_⟩
  show ∃ e, parseLines lines = .error e
  induction lines with
  | nil => exact absurd hbad (by simp)
  | cons a rest ih =>
    obtain ⟨l, hl, hshort⟩ := hbad
    rcases List.mem_cons.mp hl with rfl | hmem
    · obtain ⟨e, he⟩ := parseLine_error_of_short l hshort
      exact ⟨e, by simp [parseLines, he]⟩
    · cases hp : parseLine a with
      | error e => exact ⟨e, by simp [parseLines, hp]⟩
      | ok entry =>
        obtain ⟨e, he⟩ := ih ⟨l, hmem, hshort⟩
        exact ⟨e, by simp [parseLines, hp, he]⟩

/-- Witness for C5: a 2-field line aborts the whole load with an error. -/
theorem load_metadata_fatal_witness :
    load_metadata none = .error .fileNotFound ∧
    ∃ e, load_metadata
      (some ["LA_0001 LA_T_0001 - - bonafide", "LA_0001 LA_T_0002"]) =
        .error e :=
  load_metadata_fatal ["LA_0001 LA_T_0001 - - bonafide", "LA_0001 LA_T_0002"]
    ⟨"LA_0001 LA_T_0002", by decide⟩

/-- C6: a successful load returns exactly one entry per line, in file order,
the filename of each entry being field 1 of the corresponding line. -/
theorem parseLines_order (lines : List String) (data : List (String × Nat))
    (h : parseLines lines = .ok data) :
    data.length = lines.length ∧
    ∀ i, i < lines.length →
      ∃ line entry, lines[i]? = some line ∧ parseLine line = .ok entry ∧
        (fields line)[1]? = some entry.1 ∧ data[i]? = some entry := by
  induction lines generalizing data with
  | nil =>
    unfold parseLines at h
    injection h with h
    subst h
    exact ⟨rfl, fun i hi => absurd hi (by simp)⟩
  | cons a rest ih =>
    unfold parseLines at h
    cases hp : parseLine a with
    | error e => rw [hp] at h; cases h
    | ok entry =>
      rw [hp] at h
      cases hr : parseLines rest with
      | error e => rw [hr] at h; cases h
      | ok entries =>
        rw [hr] at h
        injection h with h
        subst h
        obtain ⟨hlen, hidx⟩ := ih entries hr
        refine ⟨by simp [hlen], ?_⟩
        intro i hi
        match i with
        | 0 => exact ⟨a, entry, by simp, hp, parseLine_ok_field1 hp, by simp⟩
        | j + 1 =>
          obtain ⟨line, e2, hl, hpe, hf, hd⟩ := hidx j (by simpa using hi)
          exact ⟨line, e2, by simpa using hl, hpe, hf, by simpa using hd⟩

/-- Witness for C6 on a concrete two-line protocol file. -/
theorem parseLines_order_witness :
    ([("LA_T_0001", 0), ("LA_T_0002", 1)] : List (String × Nat)).length =
      ["LA_0001 LA_T_0001 - - bonafide",
       "LA_0001 LA_T_0002 - - spoof"].length :=
  (parseLines_order
    ["LA_0001 LA_T_0001 - - bonafide", "LA_0001 LA_T_0002 - - spoof"]
    [("LA_T_0001", 0), ("LA_T_0002", 1)] (by decide)).1

/-- C9: noninterference of the ignored fields — two lines with at least 5
fields that agree on field 1 and field 4 parse to identical entries,
whatever fields 0, 2, 3 and any further fields hold. -/
theorem parseLine_noninterference (l1 l2 : String)
    (_hlen1 : 5 ≤ (fields l1).length) (_hlen2 : 5 ≤ (fields l2).length)
    (h1 : (fields l1)[1]? = (fields l2)[1]?)
    (h4 : (fields l1)[4]? = (fields l2)[4]?) :
    parseLine l1 = parseLine l2 := by
  unfold parseLine
  rw [h1, h4]

/-- Witness for C9: two lines differing in every ignored field. -/
theorem parseLine_noninterference_witness :
    parseLine "LA_0001 LA_T_0001 - - bonafide" =
      parseLine "XYZ LA_T_0001 a b bonafide extra junk" :=
  parseLine_noninterference
    "LA_0001 LA_T_0001 - - bonafide" "XYZ LA_T_0001 a b bonafide extra junk"
    (by decide) (by decide) (by decide) (by decide)

/-! ## Claim theorems: Feature Pipeline -/

/-- C2: every feature matrix returned by `__getitem__` has time length
exactly `targetLength`, whatever the duration of the input audio (assuming
the external mel front-end returns rectangular matrices). -/
theorem getItem_fixed_length (fs : String → Option Audio)
    (resample : Nat → Nat → List (List ℚ) → List (List ℚ))
    (featureExtractor : SqueezedWaveform → Tensor2)
    (audioDir : String) (samplingRate targetLength : Nat)
    (entry : String × Nat) (m : Tensor2) (label : Nat)
    (hfe : ∀ a, (featureExtractor a).wf)
    (h : getItem fs resample featureExtractor audioDir samplingRate
      targetLength entry = .ok (m, label)) :
    m.timeLen = targetLength ∧ ∀ r ∈ m.rows, r.length = targetLength := by
  unfold getItem at h
  cases hfs : fs (audioPath audioDir entry.1) with
  | none => rw [hfs] at h; cases h
  | some audio =>
    rw [hfs] at h
    injection h with h
    have hm : padOrTruncate targetLength
        (featureExtractor (squeeze0 (resampleStep resample samplingRate
          audio.channels audio.sampleRate))) = m := congrArg Prod.fst h
    subst hm
    refine ⟨padOrTruncate_timeLen .., ?_⟩
    intro r hr
    rw [padOrTruncate_wf targetLength _ (hfe _) r hr, padOrTruncate_timeLen]

/-- Witness for C2 on a concrete one-item filesystem and front-end. -/
theorem getItem_fixed_length_witness :
    (padOrTruncate 3000 ⟨[[(1 : ℚ), 2, 3]], 3⟩).timeLen = 3000 :=
  (getItem_fixed_length (fun _ => some ⟨[[1, 2]], 16000⟩) (fun _ _ w => w)
    (fun _ => ⟨[[(1 : ℚ), 2, 3]], 3⟩) "d" 16000 3000 ("f", 0)
    (padOrTruncate 3000 ⟨[[(1 : ℚ), 2, 3]], 3⟩) 0
    (fun _ => show Tensor2.wf ⟨[[(1 : ℚ), 2, 3]], 3⟩ by decide) rfl).1

/-- C3: a matrix shorter than the target length is extended on the right
with zeros up to the target length, its original values unchanged; a matrix
longer than the target length is truncated to the target length, with no
padding added. -/
theorem padOrTruncate_cases (targetLength : Nat) (m : Tensor2) :
    (m.timeLen < targetLength →
      (padOrTruncate targetLength m).rows = m.rows.map fun r =>
        r ++ List.replicate (targetLength - m.timeLen) (0 : ℚ)) ∧
    (targetLength < m.timeLen →
      (padOrTruncate targetLength m).rows =
        m.rows.map fun r => r.take targetLength) := by
  constructor
  · intro h
    unfold padOrTruncate
    rw [if_pos h]
  · intro h
    unfold padOrTruncate
    rw [if_neg (by omega)]

/-- Witness for C3: a 3-frame row padded to 5 and truncated to 2. -/
theorem padOrTruncate_cases_witness :
    (padOrTruncate 5 ⟨[[(1 : ℚ), 2, 3]], 3⟩).rows = [[1, 2, 3, 0, 0]] ∧
    (padOrTruncate 2 ⟨[[(1 : ℚ), 2, 3]], 3⟩).rows = [[1, 2]] :=
  ⟨((padOrTruncate_cases 5 ⟨[[(1 : ℚ), 2, 3]], 3⟩).1 (by decide)).trans
      (by decide),
   ((padOrTruncate_cases 2 ⟨[[(1 : ℚ), 2, 3]], 3⟩).2 (by decide)).trans
      (by decide)⟩

/-- C4 counterexample: with a 2-channel decoded waveform `[[1], [2]]` at the
target rate, the value line 52 passes to the feature extractor is the
unchanged 2-D waveform, not its first channel — `squeeze(0)` removes the
leading dimension only when it has size 1, so the claim that multi-channel
audio is collapsed to its first channel is false. -/
theorem squeeze0_multichannel_counterexample :
    squeeze0 (resampleStep (fun _ _ w => w) 16000 [[(1 : ℚ)], [2]] 16000) =
      .many [[(1 : ℚ)], [2]] ∧
    squeeze0 (resampleStep (fun _ _ w => w) 16000 [[(1 : ℚ)], [2]] 16000) ≠
      .one [(1 : ℚ)] := by
  constructor
  · rfl
  · intro h
    cases h

/-- C4 (amended): `waveform.squeeze(0)` collapses the waveform to a single
1-D channel exactly when it has one channel; a waveform with any other
number of channels reaches the feature extractor unchanged, with all its
channels — the first channel is never selected. -/
theorem squeeze0_single_channel_only (w : List (List ℚ)) :
    (∀ c, w = [c] → squeeze0 w = .one c) ∧
    (w.length ≠ 1 → squeeze0 w = .many w) := by
  constructor
  · rintro c rfl
    rfl
  · intro h
    match w with
    | [] => rfl
    | [c] => simp at h
    | a :: b :: rest => rfl

/-- Witness for the amended C4: a mono and a stereo waveform. -/
theorem squeeze0_single_channel_only_witness :
    squeeze0 [[(1 : ℚ), 2]] = .one [(1 : ℚ), 2] ∧
    squeeze0 [[(1 : ℚ)], [2]] = .many [[(1 : ℚ)], [2]] :=
  ⟨(squeeze0_single_channel_only [[(1 : ℚ), 2]]).1 [(1 : ℚ), 2] rfl,
   (squeeze0_single_channel_only [[(1 : ℚ)], [2]]).2 (by decide)⟩

/-- C7: the waveform is resampled exactly when the native sample rate
differs from the target rate; at the target rate it is passed on
unchanged. -/
theorem resampleStep_iff
    (resample : Nat → Nat → List (List ℚ) → List (List ℚ))
    (samplingRate sampleRate : Nat) (w : List (List ℚ)) :
    (sampleRate = samplingRate →
      resampleStep resample samplingRate w sampleRate = w) ∧
    (sampleRate ≠ samplingRate →
      resampleStep resample samplingRate w sampleRate =
        resample sampleRate samplingRate w) := by
  constructor <;> intro h <;> simp [resampleStep, h]

/-- Witness for C7 with a resampler that visibly changes the waveform. -/
theorem resampleStep_iff_witness :
    resampleStep (fun _ _ w => w.map fun c => c ++ c) 16000 [[(1 : ℚ)]]
      16000 = [[(1 : ℚ)]] ∧
    resampleStep (fun _ _ w => w.map fun c => c ++ c) 16000 [[(1 : ℚ)]]
      8000 = [[(1 : ℚ), 1]] :=
  ⟨(resampleStep_iff (fun _ _ w => w.map fun c => c ++ c) 16000 16000
      [[(1 : ℚ)]]).1 rfl,
   ((resampleStep_iff (fun _ _ w => w.map fun c => c ++ c) 16000 8000
      [[(1 : ℚ)]]).2 (by decide)).trans (by decide)⟩

/-- C8: when the referenced audio file is absent from the audio directory,
`__getitem__` fails with a distinguishable I/O error naming the path; no
feature matrix is produced and the item is not skipped. -/
theorem getItem_missing_file (fs : String → Option Audio)
    (resample : Nat → Nat → List (List ℚ) → List (List ℚ))
    (featureExtractor : SqueezedWaveform → Tensor2)
    (audioDir : String) (samplingRate targetLength : Nat)
    (entry : String × Nat)
    (h : fs (audioPath audioDir entry.1) = none) :
    getItem fs resample featureExtractor audioDir samplingRate targetLength
      entry = .error (.ioError (audioPath audioDir entry.1)) := by
  unfold getItem
  rw [h]

/-- Witness for C8 on an empty filesystem. -/
theorem getItem_missing_file_witness :
    getItem (fun _ => none) (fun _ _ w => w) (fun _ => ⟨[], 0⟩) "dir"
      16000 3000 ("LA_T_0001", 1) =
      .error (.ioError (audioPath "dir" "LA_T_0001")) :=
  getItem_missing_file (fun _ => none) (fun _ _ w => w) (fun _ => ⟨[], 0⟩)
    "dir" 16000 3000 ("LA_T_0001", 1) rfl

/-- C10: on a rectangular matrix whose time length already equals the
target length, pad-or-truncate is the identity — no zeros added, no frames
removed. -/
theorem padOrTruncate_id_at_target (targetLength : Nat) (m : Tensor2)
    (hwf : m.wf) (h : m.timeLen = targetLength) :
    padOrTruncate targetLength m = m := by
  subst h
  unfold padOrTruncate
  rw [if_neg (lt_irrefl _)]
  obtain ⟨rows, t⟩ := m
  simp only [Tensor2.mk.injEq, and_true]
  have hid : ∀ r ∈ rows, r.take t = id r := fun r hr => by
    simp only [id]
    rw [show t = r.length from (hwf r hr).symm, List.take_length]
  simpa using List.map_congr_left hid

/-- Witness for C10: a 3-frame matrix with target length 3. -/
theorem padOrTruncate_id_at_target_witness :
    padOrTruncate 3 ⟨[[(1 : ℚ), 2, 3], [4, 5, 6]], 3⟩ =
      ⟨[[(1 : ℚ), 2, 3], [4, 5, 6]], 3⟩ :=
  padOrTruncate_id_at_target 3 ⟨[[(1 : ℚ), 2, 3], [4, 5, 6]], 3⟩
    (by decide) rfl

end WhisperFeatureExtractor
